import Mathlib

/-!
Verification of the voice-controlled laptop assistant server (`server.js`).

The development shallowly embeds the two core components of the server:

* `CommandProcessor.processCommand` — the ordered else-if chain that
  classifies a lower-cased, trimmed command string, performs the matched
  action, and returns a `{status, response}` outcome, converting every
  thrown execution error into an error outcome;
* the storage failover layer (`saveCommand` / `getCommands`) — MongoDB
  writes with transparent demotion to a bounded in-memory buffer.

Host-level side effects (spawning processes, reading the clock, querying
hardware) are modelled by an explicit environment `Env`: each
side-effecting action is a value of `Action`, and `Env.act` reports
whether the underlying `exec` call succeeded or rejected with an error,
exactly as the promise wrappers in the source do.
-/

namespace Server

/-! ## String helpers mirroring the JavaScript primitives -/

/-- `startsList needle l`: the characters `needle` are a prefix of `l`
(JavaScript `String.prototype.startsWith` on char lists). -/
def startsList : List Char → List Char → Bool
  | [], _ => true
  | _ :: _, [] => false
  | a :: as, b :: bs => a == b && startsList as bs

/-- `hasSubList needle l`: `needle` occurs contiguously inside `l`. -/
def hasSubList (needle : List Char) : List Char → Bool
  | [] => startsList needle []
  | c :: rest => startsList needle (c :: rest) || hasSubList needle rest

/-- JavaScript `hay.includes(sub)`. -/
def jsIncludes (hay sub : String) : Bool :=
  hasSubList sub.toList hay.toList

/-- JavaScript `s.startsWith(pre)`. -/
def jsStartsWith (s pre : String) : Bool :=
  startsList pre.toList s.toList

/-- Whitespace as matched by `\s` (restricted to the ASCII whitespace the
commands can contain). -/
def isSpaceChar (c : Char) : Bool :=
  c == ' ' || c == '\t' || c == '\n' || c == '\r'

/-- JavaScript `s.toLowerCase()` (ASCII case mapping). -/
def jsToLower (s : String) : String :=
  (s.toList.map Char.toLower).asString

/-- JavaScript `s.trim()`: strip whitespace from both ends. -/
def jsTrim (s : String) : String :=
  (((s.toList.dropWhile isSpaceChar).reverse.dropWhile isSpaceChar).reverse).asString

/-- Word characters matched by `\w`. -/
def isWordChar (c : Char) : Bool :=
  c.isAlpha || c.isDigit || c == '_'

/-- Characters of the class `[a-zA-Z0-9.-]` in the URL regex. -/
def isDomChar (c : Char) : Bool :=
  c.isAlpha || c.isDigit || c == '.' || c == '-'

/-- Numeric value of a digit string (JavaScript `parseInt` on the digits
captured by `(\d+)`). -/
def digitsToNat (l : List Char) : Nat :=
  l.foldl (fun acc c => acc * 10 + (c.toNat - 48)) 0

/-! ### Decimal rendering of numbers (JavaScript `Number.prototype.toString`) -/

/-- Decimal digits of `n`, least significant first; `fuel` bounds the
recursion depth (any `fuel > n` is enough, since `n / 10 < n`). -/
def decDigitsAux : Nat → Nat → List Nat
  | 0, _ => []
  | fuel + 1, n => if n < 10 then [n] else n % 10 :: decDigitsAux fuel (n / 10)

/-- Decimal digits of `n`, least significant first. -/
def decDigits (n : Nat) : List Nat :=
  decDigitsAux (n + 1) n

/-- The character for a decimal digit. -/
def digitChar (d : Nat) : Char := Char.ofNat (48 + d)

/-- Decimal string of a natural number, as produced by JavaScript
`n.toString()`. -/
def natToDec (n : Nat) : String :=
  ((decDigits n).reverse.map digitChar).asString

/-- Value of a little-endian digit list (used to invert `decDigits`). -/
def ofDecDigits : List Nat → Nat
  | [] => 0
  | d :: ds => d + 10 * ofDecDigits ds

/-! ### The regular expressions used by `processCommand` -/

/-- Matches `[a-zA-Z0-9.-]+\.[a-zA-Z]{2,}` at the start of `l`: the
greedy run of domain characters is split at the last dot that is followed
by at least two letters.  `domSplit run m` scans candidate dot positions
from `m` downward (regex backtracking tries the longest prefix first). -/
def domSplit (run : List Char) : Nat → Option (List Char)
  | 0 => none
  | m + 1 =>
    let tail := (run.drop (m + 2)).takeWhile Char.isAlpha
    if run.get? (m + 1) == some '.' && decide (2 ≤ tail.length) then
      some (run.take (m + 1) ++ '.' :: tail)
    else
      domSplit run m

/-- The domain part of the URL regex, anchored at the head of `l`. -/
def domainAt (l : List Char) : Option (List Char) :=
  let run := l.takeWhile isDomChar
  domSplit run run.length

/-- One attempt of `/open\s+([a-zA-Z0-9.-]+\.[a-zA-Z]{2,})/` anchored at
the head of `l`. -/
def urlMatchAt (l : List Char) : Option (List Char) :=
  if startsList "open".toList l then
    let rest := l.drop 4
    let ws := rest.takeWhile isSpaceChar
    if ws.isEmpty then none
    else domainAt (rest.drop ws.length)
  else none

/-- Leftmost match of the URL regex over the whole string. -/
def urlMatchList : List Char → Option (List Char)
  | [] => none
  | c :: rest =>
    match urlMatchAt (c :: rest) with
    | some cap => some cap
    | none => urlMatchList rest

/-- `cmd.match(/open\s+([a-zA-Z0-9.-]+\.[a-zA-Z]{2,})/)`, first capture. -/
def urlMatch (cmd : String) : Option String :=
  (urlMatchList cmd.toList).map List.asString

/-- `cmd.replace(/search|google/g, '')`: delete every occurrence of
`search` or `google`, scanning left to right.  `fuel` bounds the
recursion depth (each step consumes at least one character, so
`fuel = l.length` is enough). -/
def stripSGAux : Nat → List Char → List Char
  | 0, l => l
  | fuel + 1, l =>
    match l with
    | [] => []
    | c :: rest =>
      if startsList "search".toList (c :: rest) then
        stripSGAux fuel ((c :: rest).drop 6)
      else if startsList "google".toList (c :: rest) then
        stripSGAux fuel ((c :: rest).drop 6)
      else
        c :: stripSGAux fuel rest

/-- `cmd.replace(/search|google/g, '')`. -/
def stripSearchGoogle (l : List Char) : List Char :=
  stripSGAux l.length l

/-- `cmd.replace(/youtube|search|on/g, '')`, with the same fuel scheme. -/
def stripYtAux : Nat → List Char → List Char
  | 0, l => l
  | fuel + 1, l =>
    match l with
    | [] => []
    | c :: rest =>
      if startsList "youtube".toList (c :: rest) then
        stripYtAux fuel ((c :: rest).drop 7)
      else if startsList "search".toList (c :: rest) then
        stripYtAux fuel ((c :: rest).drop 6)
      else if startsList "on".toList (c :: rest) then
        stripYtAux fuel ((c :: rest).drop 2)
      else
        c :: stripYtAux fuel rest

/-- `cmd.replace(/youtube|search|on/g, '')`. -/
def stripYoutube (l : List Char) : List Char :=
  stripYtAux l.length l

/-- One attempt of `/(?:message|text)\s+(\w+)/` anchored at the head. -/
def contactCapAt (l : List Char) : Option (List Char) :=
  let kw : Option Nat :=
    if startsList "message".toList l then some 7
    else if startsList "text".toList l then some 4
    else none
  match kw with
  | none => none
  | some k =>
    let rest := l.drop k
    let ws := rest.takeWhile isSpaceChar
    if ws.isEmpty then none
    else
      let cap := (rest.drop ws.length).takeWhile isWordChar
      if cap.isEmpty then none else some cap

/-- Leftmost match of `/(?:message|text)\s+(\w+)/`, first capture. -/
def contactMatchList : List Char → Option (List Char)
  | [] => none
  | c :: rest =>
    match contactCapAt (c :: rest) with
    | some cap => some cap
    | none => contactMatchList rest

/-- One attempt of `/(?:open|launch|start)\s+(.+)/` anchored at the head.
`.` does not match line terminators; the input reaching this regex is
already trimmed, so the greedy `\s+`/`.+` split is the maximal
whitespace run followed by the rest of the line. -/
def appCapAt (l : List Char) : Option (List Char) :=
  let kw : Option Nat :=
    if startsList "open".toList l then some 4
    else if startsList "launch".toList l then some 6
    else if startsList "start".toList l then some 5
    else none
  match kw with
  | none => none
  | some k =>
    let rest := l.drop k
    let ws := rest.takeWhile isSpaceChar
    if ws.isEmpty then none
    else
      let cap := (rest.drop ws.length).takeWhile (fun c => c != '\n' && c != '\r')
      if cap.isEmpty then none else some cap

/-- Leftmost match of `/(?:open|launch|start)\s+(.+)/`, first capture. -/
def appMatchList : List Char → Option (List Char)
  | [] => none
  | c :: rest =>
    match appCapAt (c :: rest) with
    | some cap => some cap
    | none => appMatchList rest

/-- One attempt of `/(\d+)\s*(seconds?|minutes?)/` anchored at the head:
a maximal digit run, optional whitespace, then a unit word (the
alternation tries `seconds?` before `minutes?`, each greedy in the
optional `s`). -/
def timeMatchAt (l : List Char) : Option (Nat × String) :=
  let ds := l.takeWhile Char.isDigit
  if ds.isEmpty then none
  else
    let rest := (l.drop ds.length).dropWhile isSpaceChar
    if startsList "seconds".toList rest then some (digitsToNat ds, "seconds")
    else if startsList "second".toList rest then some (digitsToNat ds, "second")
    else if startsList "minutes".toList rest then some (digitsToNat ds, "minutes")
    else if startsList "minute".toList rest then some (digitsToNat ds, "minute")
    else none

/-- Leftmost match of `/(\d+)\s*(seconds?|minutes?)/`. -/
def firstTimeMatch : List Char → Option (Nat × String)
  | [] => none
  | c :: rest =>
    match timeMatchAt (c :: rest) with
    | some r => some r
    | none => firstTimeMatch rest

/-- The shutdown delay in seconds computed by the shutdown branch:
`timeMatch` anywhere in the command, minutes scaled by 60, defaulting
to 60 when no match. -/
def durationSeconds (cmd : String) : Nat :=
  match firstTimeMatch cmd.toList with
  | some (v, u) => if jsStartsWith u "minute" then v * 60 else v
  | none => 60

/-- The text after the first occurrence of `needle`, if any (used to
state where the duration regex found its match). -/
def afterFirst (needle : String) : List Char → Option (List Char)
  | [] => if startsList needle.toList [] then some [] else none
  | c :: rest =>
    if startsList needle.toList (c :: rest) then
      some ((c :: rest).drop needle.toList.length)
    else
      afterFirst needle rest

/-- JavaScript `encodeURIComponent`: unreserved ASCII characters pass
through, every other UTF-8 byte is percent-encoded in uppercase hex. -/
def hexDigitChar (d : Nat) : Char :=
  if d < 10 then Char.ofNat (48 + d) else Char.ofNat (55 + d)

/-- A byte is unreserved for `encodeURIComponent`:
`A-Z a-z 0-9 - _ . ! ~ * ' ( )`. -/
def isUnreservedByte (b : Nat) : Bool :=
  (65 ≤ b && b ≤ 90) || (97 ≤ b && b ≤ 122) || (48 ≤ b && b ≤ 57) ||
  b == 45 || b == 95 || b == 46 || b == 33 || b == 126 || b == 42 ||
  b == 39 || b == 40 || b == 41

def encodeURIComponent (s : String) : String :=
  (s.toUTF8.toList.foldr
    (fun b acc =>
      let n := b.toNat
      if isUnreservedByte n then Char.ofNat n :: acc
      else '%' :: hexDigitChar (n / 16) :: hexDigitChar (n % 16) :: acc)
    []).asString

/-! ## The command processor (`CommandProcessor.processCommand`) -/

/-- The `{status, response}` object returned by `processCommand`. -/
structure Outcome where
  status : String
  response : String
deriving DecidableEq, Repr

/-- The structured error a rejected `exec` promise carries
(`error.code`, `error.message`). -/
structure ExecError where
  code : Option Nat
  message : String
deriving DecidableEq, Repr

/-- The host-level side effects `processCommand` can request.  Each
constructor records the static method invoked and its argument. -/
inductive Action where
  | website (url : String)          -- openWebsite
  | app (name : String)             -- openApplication
  | specificApp (name : String)     -- openSpecificApplication
  | fileLocation (loc : String)     -- openFileLocation
  | settingsPane (pane : String)    -- openSettings
  | shutdownIn (seconds : Nat)      -- systemShutdown
  | restartSys                      -- systemRestart
  | sleepSys                        -- systemSleep
  | volume (dir : String)           -- adjustVolume
deriving DecidableEq, Repr

/-- The execution environment: the outcome of each host action, plus the
strings the informational queries produce (clock readings and the
`get*Info` results, which catch their own internal errors and always
return a string). -/
structure Env where
  act : Action → Except ExecError Unit
  timeStr : String
  dateStr : String
  systemInfo : String
  memoryInfo : String
  storageInfo : String
  cpuInfo : String
  networkInfo : String
  batteryInfo : String
  temperatureInfo : String

/-! ### The classification predicates, in source order -/

def pOpenUrl (cmd : String) : Bool :=
  jsIncludes cmd "open" &&
    (jsIncludes cmd ".com" || jsIncludes cmd ".org" ||
     jsIncludes cmd ".net" || jsIncludes cmd ".io")

def pSearch (cmd : String) : Bool :=
  jsIncludes cmd "search" || jsIncludes cmd "google"

def pYoutube (cmd : String) : Bool :=
  jsIncludes cmd "youtube"

def pTime (cmd : String) : Bool :=
  jsIncludes cmd "time" || jsIncludes cmd "what time"

def pDate (cmd : String) : Bool :=
  jsIncludes cmd "date" || jsIncludes cmd "what date"

def pWeather (cmd : String) : Bool :=
  jsIncludes cmd "weather"

def pCalc (cmd : String) : Bool :=
  jsIncludes cmd "calculator" || jsIncludes cmd "calc"

def pNotepad (cmd : String) : Bool :=
  jsIncludes cmd "notepad" || jsIncludes cmd "text editor"

def pWhatsapp (cmd : String) : Bool :=
  jsIncludes cmd "whatsapp" || jsIncludes cmd "open whatsapp"

def pFiles (cmd : String) : Bool :=
  jsIncludes cmd "file manager" || jsIncludes cmd "explorer" || jsIncludes cmd "files"

def pSet (cmd : String) : Bool :=
  jsIncludes cmd "settings" || jsIncludes cmd "control panel"

def pLaunch (cmd : String) : Bool :=
  jsIncludes cmd "open" || jsIncludes cmd "launch" || jsIncludes cmd "start"

def pShutdown (cmd : String) : Bool :=
  jsIncludes cmd "shutdown"

def pRestart (cmd : String) : Bool :=
  jsIncludes cmd "restart" || jsIncludes cmd "reboot"

def pSleep (cmd : String) : Bool :=
  jsIncludes cmd "sleep" || jsIncludes cmd "hibernate"

def pVolUp (cmd : String) : Bool :=
  jsIncludes cmd "volume up" || jsIncludes cmd "increase volume"

def pVolDown (cmd : String) : Bool :=
  jsIncludes cmd "volume down" || jsIncludes cmd "decrease volume"

def pMute (cmd : String) : Bool :=
  jsIncludes cmd "mute" || jsIncludes cmd "volume off"

def pSysInfo (cmd : String) : Bool :=
  jsIncludes cmd "system info" || jsIncludes cmd "system information" ||
  jsIncludes cmd "computer specs"

def pMemory (cmd : String) : Bool :=
  jsIncludes cmd "ram" || jsIncludes cmd "memory"

def pStorage (cmd : String) : Bool :=
  jsIncludes cmd "storage" || jsIncludes cmd "disk space" || jsIncludes cmd "hard drive"

def pCpu (cmd : String) : Bool :=
  jsIncludes cmd "cpu" || jsIncludes cmd "processor"

def pNetwork (cmd : String) : Bool :=
  jsIncludes cmd "network" || jsIncludes cmd "ip address" || jsIncludes cmd "wifi"

def pBattery (cmd : String) : Bool :=
  jsIncludes cmd "battery" && (jsIncludes cmd "laptop" || jsIncludes cmd "computer")

def pTemp (cmd : String) : Bool :=
  jsIncludes cmd "temperature" && (jsIncludes cmd "cpu" || jsIncludes cmd "system")

/-- Index of the first rule of the else-if chain whose condition holds
(`25` is the terminal unrecognized default). -/
def firedBranch (cmd : String) : Nat :=
  if pOpenUrl cmd then 0
  else if pSearch cmd then 1
  else if pYoutube cmd then 2
  else if pTime cmd then 3
  else if pDate cmd then 4
  else if pWeather cmd then 5
  else if pCalc cmd then 6
  else if pNotepad cmd then 7
  else if pWhatsapp cmd then 8
  else if pFiles cmd then 9
  else if pSet cmd then 10
  else if pLaunch cmd then 11
  else if pShutdown cmd then 12
  else if pRestart cmd then 13
  else if pSleep cmd then 14
  else if pVolUp cmd then 15
  else if pVolDown cmd then 16
  else if pMute cmd then 17
  else if pSysInfo cmd then 18
  else if pMemory cmd then 19
  else if pStorage cmd then 20
  else if pCpu cmd then 21
  else if pNetwork cmd then 22
  else if pBattery cmd then 23
  else if pTemp cmd then 24
  else 25

/-- The fixed guidance message of the unrecognized default. -/
def guidanceMsg : String :=
  "❌ Command not recognized. Try: \"open google.com\", \"search weather\", \"open calculator\", or \"what time is it\""

/-- Branch 0: `open` plus a domain-like suffix — open the URL captured
by the URL regex; when the regex fails to capture, neither `response`
nor `status` is assigned. -/
def urlBranch (cmd : String) (env : Env) : Except ExecError (String × String) :=
  match urlMatch cmd with
  | some url =>
    match env.act (.website url) with
    | .error e => .error e
    | .ok _ => .ok ("success", "✅ Opening " ++ url)
  | none => .ok ("success", "")

/-- Branch 1: Google search for the text left after deleting
`search`/`google`; an empty term assigns nothing. -/
def searchBranch (cmd : String) (env : Env) : Except ExecError (String × String) :=
  if jsTrim (stripSearchGoogle cmd.toList).asString != "" then
    match env.act (.website ("google.com/search?q=" ++
        encodeURIComponent (jsTrim (stripSearchGoogle cmd.toList).asString))) with
    | .error e => .error e
    | .ok _ =>
      .ok ("success", "✅ Searching Google for: " ++ jsTrim (stripSearchGoogle cmd.toList).asString)
  else .ok ("success", "")

/-- Branch 2: YouTube search, or the YouTube home page when the stripped
term is empty. -/
def youtubeBranch (cmd : String) (env : Env) : Except ExecError (String × String) :=
  if jsTrim (stripYoutube cmd.toList).asString != "" then
    match env.act (.website ("youtube.com/results?search_query=" ++
        encodeURIComponent (jsTrim (stripYoutube cmd.toList).asString))) with
    | .error e => .error e
    | .ok _ =>
      .ok ("success", "✅ Searching YouTube for: " ++ jsTrim (stripYoutube cmd.toList).asString)
  else
    match env.act (.website "youtube.com") with
    | .error e => .error e
    | .ok _ => .ok ("success", "✅ Opening YouTube")

/-- Branch 8: the WhatsApp call/message/open variants.  The call and
message helpers resolve even when `exec` fails (they fall back to
WhatsApp Web), so only the plain open path can raise. -/
def whatsappBranch (cmd : String) (env : Env) : Except ExecError (String × String) :=
  if jsIncludes cmd "call" &&
     (jsIncludes cmd "mom" || jsIncludes cmd "dad" || jsIncludes cmd "friend") then
    .ok ("success", "📞 Calling " ++
      (if jsIncludes cmd "mom" then "Mom"
       else if jsIncludes cmd "dad" then "Dad"
       else "Friend") ++ " on WhatsApp")
  else if jsIncludes cmd "message" || jsIncludes cmd "text" then
    .ok ("success", "💬 Opening WhatsApp chat with " ++
      (match contactMatchList cmd.toList with
       | some cap => cap.asString
       | none => "contact"))
  else
    match env.act (.app "whatsapp") with
    | .error e => .error e
    | .ok _ => .ok ("success", "💬 Opening WhatsApp")

/-- Branch 9: the file-manager variants. -/
def filesBranch (cmd : String) (env : Env) : Except ExecError (String × String) :=
  if jsIncludes cmd "downloads" then
    match env.act (.fileLocation "downloads") with
    | .error e => .error e
    | .ok _ => .ok ("success", "📁 Opening Downloads folder")
  else if jsIncludes cmd "documents" then
    match env.act (.fileLocation "documents") with
    | .error e => .error e
    | .ok _ => .ok ("success", "📁 Opening Documents folder")
  else if jsIncludes cmd "desktop" then
    match env.act (.fileLocation "desktop") with
    | .error e => .error e
    | .ok _ => .ok ("success", "📁 Opening Desktop folder")
  else
    match env.act (.app "filemanager") with
    | .error e => .error e
    | .ok _ => .ok ("success", "📁 Opening File Manager")

/-- Branch 10: the settings variants. -/
def settingsBranch (cmd : String) (env : Env) : Except ExecError (String × String) :=
  if jsIncludes cmd "wifi" || jsIncludes cmd "network" then
    match env.act (.settingsPane "network") with
    | .error e => .error e
    | .ok _ => .ok ("success", "⚙️ Opening Network Settings")
  else if jsIncludes cmd "display" || jsIncludes cmd "screen" then
    match env.act (.settingsPane "display") with
    | .error e => .error e
    | .ok _ => .ok ("success", "⚙️ Opening Display Settings")
  else if jsIncludes cmd "sound" || jsIncludes cmd "audio" then
    match env.act (.settingsPane "sound") with
    | .error e => .error e
    | .ok _ => .ok ("success", "⚙️ Opening Sound Settings")
  else if jsIncludes cmd "bluetooth" then
    match env.act (.settingsPane "bluetooth") with
    | .error e => .error e
    | .ok _ => .ok ("success", "⚙️ Opening Bluetooth Settings")
  else
    match env.act (.settingsPane "main") with
    | .error e => .error e
    | .ok _ => .ok ("success", "⚙️ Opening System Settings")

/-- Branch 11: generic application launch via the app-name regex; when
the regex fails to capture, nothing is assigned. -/
def launchBranch (cmd : String) (env : Env) : Except ExecError (String × String) :=
  match appMatchList cmd.toList with
  | some cap =>
    match env.act (.specificApp (jsTrim cap.asString)) with
    | .error e => .error e
    | .ok _ => .ok ("success", "🚀 Opening " ++ jsTrim cap.asString)
  | none => .ok ("success", "")

/-- Branch 12: shutdown with the parsed delay. -/
def shutdownBranch (cmd : String) (env : Env) : Except ExecError (String × String) :=
  match env.act (.shutdownIn (durationSeconds cmd)) with
  | .error e => .error e
  | .ok _ =>
    .ok ("success", "⚠️ System will shutdown in " ++ natToDec (durationSeconds cmd) ++ " seconds")

/-- A branch that performs one action and, on success, produces a fixed
response (weather, calculator, notepad, restart, sleep, volume). -/
def actBranch (a : Action) (resp : String) (env : Env) : Except ExecError (String × String) :=
  match env.act a with
  | .error e => .error e
  | .ok _ => .ok ("success", resp)

/-- The body of the `try` block of `processCommand`: the ordered else-if
chain over the lower-cased, trimmed command.  A rejected action promise
propagates as `Except.error`; otherwise the pair is the final values of
the `status` and `response` variables (both initialized to `'success'`
and `''`). -/
def runBranches (cmd : String) (env : Env) : Except ExecError (String × String) :=
  if pOpenUrl cmd then urlBranch cmd env
  else if pSearch cmd then searchBranch cmd env
  else if pYoutube cmd then youtubeBranch cmd env
  else if pTime cmd then .ok ("success", "🕐 Current time: " ++ env.timeStr)
  else if pDate cmd then .ok ("success", "📅 Current date: " ++ env.dateStr)
  else if pWeather cmd then actBranch (.website "weather.com") "🌤️ Opening weather information" env
  else if pCalc cmd then actBranch (.app "calculator") "🧮 Opening calculator" env
  else if pNotepad cmd then actBranch (.app "notepad") "📝 Opening text editor" env
  else if pWhatsapp cmd then whatsappBranch cmd env
  else if pFiles cmd then filesBranch cmd env
  else if pSet cmd then settingsBranch cmd env
  else if pLaunch cmd then launchBranch cmd env
  else if pShutdown cmd then shutdownBranch cmd env
  else if pRestart cmd then actBranch .restartSys "🔄 System restart initiated" env
  else if pSleep cmd then actBranch .sleepSys "😴 System going to sleep" env
  else if pVolUp cmd then actBranch (.volume "up") "🔊 Volume increased" env
  else if pVolDown cmd then actBranch (.volume "down") "🔉 Volume decreased" env
  else if pMute cmd then actBranch (.volume "mute") "🔇 Volume muted" env
  else if pSysInfo cmd then .ok ("success", env.systemInfo)
  else if pMemory cmd then .ok ("success", env.memoryInfo)
  else if pStorage cmd then .ok ("success", env.storageInfo)
  else if pCpu cmd then .ok ("success", env.cpuInfo)
  else if pNetwork cmd then .ok ("success", env.networkInfo)
  else if pBattery cmd then .ok ("success", env.batteryInfo)
  else if pTemp cmd then .ok ("success", env.temperatureInfo)
  else .ok ("error", guidanceMsg)

/-- The catch block of `processCommand`: map a thrown execution error to
a user-facing message. -/
def renderError (e : ExecError) : String :=
  if e.code == some 127 then
    "❌ Application not found or not installed. Please ensure the requested application is installed and accessible."
  else if jsIncludes e.message "ENOENT" then
    "❌ Command not available on this system. This feature may require additional software installation."
  else if jsIncludes e.message "permission" then
    "❌ Permission denied. This command may require administrator privileges."
  else
    "❌ Error executing command: " ++ e.message

/-- `const cmd = commandText.toLowerCase().trim()`. -/
def normCmd (commandText : String) : String :=
  jsTrim (jsToLower commandText)

/-- `CommandProcessor.processCommand(commandText, userAgent)`.  The
`userAgent` parameter is accepted (with its source default) and, as in
the source, never used by the processing itself. -/
def processCommand (commandText : String) (userAgent : String := "") (env : Env) : Outcome :=
  match runBranches (normCmd commandText) env with
  | .ok (status, response) => { status := status, response := response }
  | .error e => { status := "error", response := renderError e }

/-! ## The storage failover layer -/

/-- The document fields sent to `saveCommand` by the `/api/execute`
handler. -/
structure CommandData where
  text : String
  type : String
  status : String
  response : String
  userAgent : String
deriving DecidableEq, Repr

/-- A stored command record.  `platform` and `userAgent` are optional:
the in-memory path stores no `platform` (the schema default applies only
to MongoDB documents), and the MongoDB read projection removes
`userAgent`. -/
structure StoredCommand where
  _id : String
  text : String
  type : String
  timestamp : Nat
  status : String
  response : String
  platform : Option String
  userAgent : Option String
deriving DecidableEq, Repr

/-- The module-level storage state: the `mongoConnected` flag and the
`inMemoryCommands` fallback buffer (the one-time `dbInitialized`
readiness barrier is outside this sequential model). -/
structure StorageState where
  mongoConnected : Bool
  inMemoryCommands : List StoredCommand
deriving DecidableEq, Repr

/-- The in-memory record built by the fallback path of `saveCommand`:
`{ _id: Date.now().toString(), ...commandData, timestamp: new Date() }`. -/
def mkMemRecord (data : CommandData) (now : Nat) : StoredCommand :=
  { _id := natToDec now
    text := data.text
    type := data.type
    timestamp := now
    status := data.status
    response := data.response
    platform := none
    userAgent := some data.userAgent }

/-- The in-memory fallback path of `saveCommand`: unshift the new record
and keep only the last 100 commands. -/
def inMemorySave (st : StorageState) (data : CommandData) (now : Nat) :
    StorageState × StoredCommand :=
  let command := mkMemRecord data now
  let buf := command :: st.inMemoryCommands
  let buf2 := if buf.length > 100 then buf.take 100 else buf
  ({ st with inMemoryCommands := buf2 }, command)

/-- `saveCommand(commandData)`: when `mongoConnected`, attempt the
MongoDB write (`mongoWrite` is its outcome, carrying the saved document
on success); on failure set `mongoConnected = false` and fall through to
the in-memory path of the same call. -/
def saveCommand (st : StorageState) (data : CommandData) (now : Nat)
    (mongoWrite : Except Unit StoredCommand) : StorageState × StoredCommand :=
  if st.mongoConnected then
    match mongoWrite with
    | .ok doc => (st, doc)
    | .error _ => inMemorySave { st with mongoConnected := false } data now
  else
    inMemorySave st data now

/-- The `.select('-userAgent -__v')` projection of the MongoDB query. -/
def projectRecord (r : StoredCommand) : StoredCommand :=
  { r with userAgent := none }

/-- The `.sort({ timestamp: -1 })` ordering of the MongoDB query. -/
def sortByTimestampDesc (l : List StoredCommand) : List StoredCommand :=
  l.mergeSort (fun a b => Nat.ble b.timestamp a.timestamp)

/-- `getCommands(limit)`: when `mongoConnected`, run the MongoDB query
(sorted newest first, limited, `userAgent` projected out; `mongoDocs` is
the collection contents, or the query failure); on failure demote and
serve the in-memory buffer; when not connected, serve the buffer
directly. -/
def getCommands (st : StorageState) (limit : Nat)
    (mongoDocs : Except Unit (List StoredCommand)) :
    StorageState × List StoredCommand :=
  if st.mongoConnected then
    match mongoDocs with
    | .ok docs => (st, ((sortByTimestampDesc docs).take limit).map projectRecord)
    | .error _ => ({ st with mongoConnected := false }, st.inMemoryCommands.take limit)
  else
    (st, st.inMemoryCommands.take limit)

/-- Repeated saves against a store whose persistent write always fails
(each element pairs the document with its `Date.now()` reading). -/
def saveManyDegraded (st : StorageState) : List (CommandData × Nat) → StorageState
  | [] => st
  | (d, t) :: rest => saveManyDegraded (saveCommand st d t (Except.error ())).1 rest

/-! ## Concrete fixtures used by witnesses and counterexamples -/

/-- An environment in which every host action succeeds. -/
def okEnv : Env :=
  { act := fun _ => Except.ok ()
    timeStr := "10:00:00 AM"
    dateStr := "1/1/2026"
    systemInfo := "💻 System Information: test host"
    memoryInfo := "🧠 Memory Information: test host"
    storageInfo := "💾 Storage Information: test host"
    cpuInfo := "⚡ CPU Information: test host"
    networkInfo := "🌐 Network Information: test host"
    batteryInfo := "🔋 Battery Information: test host"
    temperatureInfo := "🌡️ Temperature Information: test host" }

/-- A sample processed command document. -/
def dataA : CommandData :=
  { text := "open google.com", type := "voice", status := "success"
    response := "✅ Opening google.com", userAgent := "Mozilla/5.0" }

/-- A second, distinct sample document. -/
def dataB : CommandData :=
  { text := "what time is it", type := "text", status := "success"
    response := "🕐 Current time: 10:00:00 AM", userAgent := "curl/8.0" }

/-- The five responses the settings branch can produce. -/
def settingsResponses : List String :=
  ["⚙️ Opening Network Settings", "⚙️ Opening Display Settings",
   "⚙️ Opening Sound Settings", "⚙️ Opening Bluetooth Settings",
   "⚙️ Opening System Settings"]

/-- No rule of the classification chain matches `cmd`. -/
abbrev noRuleMatches (cmd : String) : Prop :=
  pOpenUrl cmd = false ∧ pSearch cmd = false ∧ pYoutube cmd = false ∧
  pTime cmd = false ∧ pDate cmd = false ∧ pWeather cmd = false ∧
  pCalc cmd = false ∧ pNotepad cmd = false ∧ pWhatsapp cmd = false ∧
  pFiles cmd = false ∧ pSet cmd = false ∧ pLaunch cmd = false ∧
  pShutdown cmd = false ∧ pRestart cmd = false ∧ pSleep cmd = false ∧
  pVolUp cmd = false ∧ pVolDown cmd = false ∧ pMute cmd = false ∧
  pSysInfo cmd = false ∧ pMemory cmd = false ∧ pStorage cmd = false ∧
  pCpu cmd = false ∧ pNetwork cmd = false ∧ pBattery cmd = false ∧
  pTemp cmd = false

/-- No rule strictly before the settings rule (index 10) matches `cmd`. -/
abbrev noRuleBeforeSet (cmd : String) : Prop :=
  pOpenUrl cmd = false ∧ pSearch cmd = false ∧ pYoutube cmd = false ∧
  pTime cmd = false ∧ pDate cmd = false ∧ pWeather cmd = false ∧
  pCalc cmd = false ∧ pNotepad cmd = false ∧ pWhatsapp cmd = false ∧
  pFiles cmd = false

/-- No rule strictly before the shutdown rule (index 12) matches `cmd`. -/
abbrev noRuleBeforeShutdown (cmd : String) : Prop :=
  noRuleBeforeSet cmd ∧ pSet cmd = false ∧ pLaunch cmd = false

/-- No rule strictly before the battery rule (index 23) matches `cmd`. -/
abbrev noRuleBeforeBattery (cmd : String) : Prop :=
  noRuleBeforeShutdown cmd ∧ pShutdown cmd = false ∧ pRestart cmd = false ∧
  pSleep cmd = false ∧ pVolUp cmd = false ∧ pVolDown cmd = false ∧
  pMute cmd = false ∧ pSysInfo cmd = false ∧ pMemory cmd = false ∧
  pStorage cmd = false ∧ pCpu cmd = false ∧ pNetwork cmd = false

/-- An environment in which every host action rejects. -/
def failEnv : Env :=
  { okEnv with act := fun _ => Except.error { code := some 1, message := "spawn failed" } }

/-- A record as created by the in-memory save path. -/
def memRecA : StoredCommand := mkMemRecord dataA 1700000000000

/-! ## Theorems -/

/-! ### Helper lemmas -/

/-- On the success path, `urlBranch` reports status success. -/
theorem urlBranch_status (cmd : String) (env : Env) (s r : String)
    (h : urlBranch cmd env = Except.ok (s, r)) : s = "success" := by
  unfold urlBranch at h
  repeat' split at h
  all_goals simp_all

/-- On the success path, `searchBranch` reports status success. -/
theorem searchBranch_status (cmd : String) (env : Env) (s r : String)
    (h : searchBranch cmd env = Except.ok (s, r)) : s = "success" := by
  unfold searchBranch at h
  repeat' split at h
  all_goals simp_all

/-- On the success path, `youtubeBranch` reports status success. -/
theorem youtubeBranch_status (cmd : String) (env : Env) (s r : String)
    (h : youtubeBranch cmd env = Except.ok (s, r)) : s = "success" := by
  unfold youtubeBranch at h
  repeat' split at h
  all_goals simp_all

/-- On the success path, `whatsappBranch` reports status success. -/
theorem whatsappBranch_status (cmd : String) (env : Env) (s r : String)
    (h : whatsappBranch cmd env = Except.ok (s, r)) : s = "success" := by
  unfold whatsappBranch at h
  repeat' split at h
  all_goals simp_all

/-- On the success path, `filesBranch` reports status success. -/
theorem filesBranch_status (cmd : String) (env : Env) (s r : String)
    (h : filesBranch cmd env = Except.ok (s, r)) : s = "success" := by
  unfold filesBranch at h
  repeat' split at h
  all_goals simp_all

/-- On the success path, `settingsBranch` reports status success. -/
theorem settingsBranch_status (cmd : String) (env : Env) (s r : String)
    (h : settingsBranch cmd env = Except.ok (s, r)) : s = "success" := by
  unfold settingsBranch at h
  repeat' split at h
  all_goals simp_all

/-- On the success path, `launchBranch` reports status success. -/
theorem launchBranch_status (cmd : String) (env : Env) (s r : String)
    (h : launchBranch cmd env = Except.ok (s, r)) : s = "success" := by
  unfold launchBranch at h
  repeat' split at h
  all_goals simp_all

/-- On the success path, `shutdownBranch` reports status success. -/
theorem shutdownBranch_status (cmd : String) (env : Env) (s r : String)
    (h : shutdownBranch cmd env = Except.ok (s, r)) : s = "success" := by
  unfold shutdownBranch at h
  repeat' split at h
  all_goals simp_all

/-- On the success path, `actBranch` reports status success. -/
theorem actBranch_status (a : Action) (resp : String) (env : Env) (s r : String)
    (h : actBranch a resp env = Except.ok (s, r)) : s = "success" := by
  unfold actBranch at h
  repeat' split at h
  all_goals simp_all

/-- Injectivity of a completed branch value on the status component. -/
theorem ok_pair_fst {a b s r : String}
    (h : (Except.ok (a, b) : Except ExecError (String × String)) = Except.ok (s, r)) :
    s = a := by
  cases h; rfl

/-- Whatever branch of the try block completes, the `status` variable is
one of its two literal values. -/
theorem runBranches_status_ok (cmd : String) (env : Env) (s r : String)
    (h : runBranches cmd env = Except.ok (s, r)) : s = "success" ∨ s = "error" := by
  unfold runBranches at h
  by_cases h0 : pOpenUrl cmd = true
  · rw [if_pos h0] at h
    exact Or.inl (urlBranch_status _ _ _ _ h)
  rw [if_neg h0] at h
  by_cases h1 : pSearch cmd = true
  · rw [if_pos h1] at h
    exact Or.inl (searchBranch_status _ _ _ _ h)
  rw [if_neg h1] at h
  by_cases h2 : pYoutube cmd = true
  · rw [if_pos h2] at h
    exact Or.inl (youtubeBranch_status _ _ _ _ h)
  rw [if_neg h2] at h
  by_cases h3 : pTime cmd = true
  · rw [if_pos h3] at h
    exact Or.inl (ok_pair_fst h)
  rw [if_neg h3] at h
  by_cases h4 : pDate cmd = true
  · rw [if_pos h4] at h
    exact Or.inl (ok_pair_fst h)
  rw [if_neg h4] at h
  by_cases h5 : pWeather cmd = true
  · rw [if_pos h5] at h
    exact Or.inl (actBranch_status _ _ _ _ _ h)
  rw [if_neg h5] at h
  by_cases h6 : pCalc cmd = true
  · rw [if_pos h6] at h
    exact Or.inl (actBranch_status _ _ _ _ _ h)
  rw [if_neg h6] at h
  by_cases h7 : pNotepad cmd = true
  · rw [if_pos h7] at h
    exact Or.inl (actBranch_status _ _ _ _ _ h)
  rw [if_neg h7] at h
  by_cases h8 : pWhatsapp cmd = true
  · rw [if_pos h8] at h
    exact Or.inl (whatsappBranch_status _ _ _ _ h)
  rw [if_neg h8] at h
  by_cases h9 : pFiles cmd = true
  · rw [if_pos h9] at h
    exact Or.inl (filesBranch_status _ _ _ _ h)
  rw [if_neg h9] at h
  by_cases h10 : pSet cmd = true
  · rw [if_pos h10] at h
    exact Or.inl (settingsBranch_status _ _ _ _ h)
  rw [if_neg h10] at h
  by_cases h11 : pLaunch cmd = true
  · rw [if_pos h11] at h
    exact Or.inl (launchBranch_status _ _ _ _ h)
  rw [if_neg h11] at h
  by_cases h12 : pShutdown cmd = true
  · rw [if_pos h12] at h
    exact Or.inl (shutdownBranch_status _ _ _ _ h)
  rw [if_neg h12] at h
  by_cases h13 : pRestart cmd = true
  · rw [if_pos h13] at h
    exact Or.inl (actBranch_status _ _ _ _ _ h)
  rw [if_neg h13] at h
  by_cases h14 : pSleep cmd = true
  · rw [if_pos h14] at h
    exact Or.inl (actBranch_status _ _ _ _ _ h)
  rw [if_neg h14] at h
  by_cases h15 : pVolUp cmd = true
  · rw [if_pos h15] at h
    exact Or.inl (actBranch_status _ _ _ _ _ h)
  rw [if_neg h15] at h
  by_cases h16 : pVolDown cmd = true
  · rw [if_pos h16] at h
    exact Or.inl (actBranch_status _ _ _ _ _ h)
  rw [if_neg h16] at h
  by_cases h17 : pMute cmd = true
  · rw [if_pos h17] at h
    exact Or.inl (actBranch_status _ _ _ _ _ h)
  rw [if_neg h17] at h
  by_cases h18 : pSysInfo cmd = true
  · rw [if_pos h18] at h
    exact Or.inl (ok_pair_fst h)
  rw [if_neg h18] at h
  by_cases h19 : pMemory cmd = true
  · rw [if_pos h19] at h
    exact Or.inl (ok_pair_fst h)
  rw [if_neg h19] at h
  by_cases h20 : pStorage cmd = true
  · rw [if_pos h20] at h
    exact Or.inl (ok_pair_fst h)
  rw [if_neg h20] at h
  by_cases h21 : pCpu cmd = true
  · rw [if_pos h21] at h
    exact Or.inl (ok_pair_fst h)
  rw [if_neg h21] at h
  by_cases h22 : pNetwork cmd = true
  · rw [if_pos h22] at h
    exact Or.inl (ok_pair_fst h)
  rw [if_neg h22] at h
  by_cases h23 : pBattery cmd = true
  · rw [if_pos h23] at h
    exact Or.inl (ok_pair_fst h)
  rw [if_neg h23] at h
  by_cases h24 : pTemp cmd = true
  · rw [if_pos h24] at h
    exact Or.inl (ok_pair_fst h)
  rw [if_neg h24] at h
  exact Or.inr (ok_pair_fst h)

/-- Correctness of the fuel-bounded digit expansion. -/
theorem ofDecDigits_decDigitsAux :
    ∀ fuel n, n < fuel → ofDecDigits (decDigitsAux fuel n) = n := by
  intro fuel
  induction fuel with
  | zero => intro n h; omega
  | succ f ih =>
    intro n h
    rw [decDigitsAux]
    split
    · simp [ofDecDigits]
    · rename_i h10
      rw [ofDecDigits, ih (n / 10) (by omega)]
      omega

/-- Every entry of `decDigitsAux` is a single decimal digit. -/
theorem decDigitsAux_lt_ten :
    ∀ fuel n, n < fuel → ∀ d ∈ decDigitsAux fuel n, d < 10 := by
  intro fuel
  induction fuel with
  | zero => intro n h; omega
  | succ f ih =>
    intro n h d hd
    rw [decDigitsAux] at hd
    split at hd
    · simp at hd; omega
    · rename_i h10
      rcases List.mem_cons.1 hd with h1 | h1
      · omega
      · exact ih (n / 10) (by omega) d h1

/-- `digitChar` is injective on single decimal digits. -/
theorem digitChar_inj {d1 d2 : Nat} (h1 : d1 < 10) (h2 : d2 < 10)
    (h : digitChar d1 = digitChar d2) : d1 = d2 := by
  interval_cases d1 <;> interval_cases d2 <;> revert h <;> decide

/-- `map digitChar` is injective on lists of decimal digits. -/
theorem map_digitChar_inj :
    ∀ l1 l2 : List Nat, (∀ d ∈ l1, d < 10) → (∀ d ∈ l2, d < 10) →
      l1.map digitChar = l2.map digitChar → l1 = l2 := by
  intro l1
  induction l1 with
  | nil => intro l2 _ _ h; cases l2 <;> simp_all
  | cons a as ih =>
    intro l2 hb1 hb2 h
    cases l2 with
    | nil => simp_all
    | cons b bs =>
      simp only [List.map_cons, List.cons.injEq] at h
      have ha : a = b :=
        digitChar_inj (hb1 a (by simp)) (hb2 b (by simp)) h.1
      have hrest : as = bs :=
        ih bs (fun d hd => hb1 d (by simp [hd])) (fun d hd => hb2 d (by simp [hd])) h.2
      rw [ha, hrest]

/-- The decimal rendering of a natural number is injective: distinct
`Date.now()` readings give distinct id strings. -/
theorem natToDec_inj {m n : Nat} (h : natToDec m = natToDec n) : m = n := by
  unfold natToDec at h
  rw [List.asString_inj] at h
  have hrev : (decDigits m).reverse = (decDigits n).reverse :=
    map_digitChar_inj _ _
      (fun d hd => decDigitsAux_lt_ten (m + 1) m (by omega) d (List.mem_reverse.1 hd))
      (fun d hd => decDigitsAux_lt_ten (n + 1) n (by omega) d (List.mem_reverse.1 hd)) h
  have hdig : decDigits m = decDigits n := by
    have := congrArg List.reverse hrev
    simpa using this
  calc m = ofDecDigits (decDigits m) := (ofDecDigits_decDigitsAux (m + 1) m (by omega)).symm
    _ = ofDecDigits (decDigits n) := by rw [hdig]
    _ = n := ofDecDigits_decDigitsAux (n + 1) n (by omega)

/-! ### C1: processCommand always returns an Outcome -/

/-- C1: for every string input `text` (and any `userAgent`),
`processCommand` returns an Outcome whose status is `success` or
`error`; every failure raised by resolution or execution is caught by
the surrounding try/catch and converted into an error Outcome carrying
the rendered message, so nothing escapes the function's boundary. -/
theorem processCommand_total_outcome (text ua : String) (env : Env) :
    ((processCommand text ua env).status = "success" ∨
      (processCommand text ua env).status = "error") ∧
    (∀ e, runBranches (normCmd text) env = Except.error e →
      processCommand text ua env = { status := "error", response := renderError e }) := by
  constructor
  · unfold processCommand
    cases hrb : runBranches (normCmd text) env with
    | ok p =>
      obtain ⟨st, r⟩ := p
      simpa using runBranches_status_ok _ _ _ _ hrb
    | error e => simp
  · intro e he
    unfold processCommand
    rw [he]

/-- C1 witness: with an environment whose `exec` always rejects, the
weather command is converted into an error outcome (never a thrown
error). -/
theorem processCommand_total_outcome_witness :
    processCommand "weather" "Mozilla/5.0" failEnv =
      { status := "error"
        response := renderError { code := some 1, message := "spawn failed" } } :=
  (processCommand_total_outcome "weather" "Mozilla/5.0" failEnv).2
    { code := some 1, message := "spawn failed" } rfl

/-! ### C9: the required-response property fails in the code -/

/-- C9 (code bug): the outcome's response is not always non-empty.  The
bare input "search" matches the search rule but strips to an empty term,
and "open .com" matches the URL rule but fails the URL regex; in both
cases no branch assigns `response`, and `processCommand` returns status
`success` with the empty response — contradicting the schema's
`response: required` declaration. -/
theorem empty_response_failing_input :
    processCommand "search" "Mozilla/5.0" okEnv = { status := "success", response := "" } ∧
    processCommand "open .com" "Mozilla/5.0" okEnv = { status := "success", response := "" } := by
  constructor
  · decide
  · decide

/-! ### C5: userAgent is only projected out on the MongoDB read path -/

/-- C5 counterexample: in degraded (in-memory) mode a history read
returns the stored record verbatim, `userAgent` included — the
`.select('-userAgent')` projection exists only on the MongoDB path, so
the claim "excluded regardless of which storage path served the query"
is false. -/
theorem history_userAgent_counterexample :
    (getCommands { mongoConnected := false, inMemoryCommands := [memRecA] } 50
        (Except.error ())).2 = [memRecA] ∧
    memRecA.userAgent = some "Mozilla/5.0" := by
  constructor
  · decide
  · decide

/-- C5 (amended): reads served by the MongoDB query project `userAgent`
out of every returned record, while reads served by the in-memory
fallback return the buffered records unchanged (retaining their
`userAgent`). -/
theorem history_projection_amended (st : StorageState) (limit : Nat)
    (docs : List StoredCommand) (hconn : st.mongoConnected = true) :
    (∀ r ∈ (getCommands st limit (Except.ok docs)).2, r.userAgent = none) ∧
    (∀ st2 : StorageState, ∀ m, st2.mongoConnected = false →
      (getCommands st2 limit m).2 = st2.inMemoryCommands.take limit) := by
  constructor
  · intro r hr
    unfold getCommands at hr
    rw [if_pos hconn] at hr
    simp only [List.mem_map] at hr
    obtain ⟨x, _, hx⟩ := hr
    rw [← hx]
    rfl
  · intro st2 m h2
    unfold getCommands
    rw [if_neg (by simp [h2])]

/-- C5 amended witness: a connected read of a single stored document
yields records without `userAgent`; a degraded read returns the buffer
prefix. -/
theorem history_projection_amended_witness :
    (∀ r ∈ (getCommands { mongoConnected := true, inMemoryCommands := [] } 50
        (Except.ok [memRecA])).2, r.userAgent = none) ∧
    (∀ st2 : StorageState, ∀ m, st2.mongoConnected = false →
      (getCommands st2 50 m).2 = st2.inMemoryCommands.take 50) :=
  history_projection_amended { mongoConnected := true, inMemoryCommands := [] } 50
    [memRecA] rfl

/-! ### C8: in-memory ids are time-derived and can collide -/

/-- C8 counterexample: two in-memory saves in the same millisecond
produce distinct records (different text) carrying the same
time-derived id, so id uniqueness fails on the in-memory path. -/
theorem memory_id_collision_counterexample :
    (inMemorySave { mongoConnected := false, inMemoryCommands := [] }
        dataA 1700000000000).2._id =
      (inMemorySave (inMemorySave { mongoConnected := false, inMemoryCommands := [] }
          dataA 1700000000000).1 dataB 1700000000000).2._id ∧
    (inMemorySave { mongoConnected := false, inMemoryCommands := [] }
        dataA 1700000000000).2 ≠
      (inMemorySave (inMemorySave { mongoConnected := false, inMemoryCommands := [] }
          dataA 1700000000000).1 dataB 1700000000000).2 := by
  constructor
  · decide
  · decide

/-- C8 (amended): an in-memory record's id is the decimal rendering of
its `Date.now()` reading, so two in-memory records created at distinct
millisecond timestamps have distinct ids; only same-millisecond saves
collide. -/
theorem memory_ids_distinct_amended (d1 d2 : CommandData) (t1 t2 : Nat)
    (h : t1 ≠ t2) :
    (mkMemRecord d1 t1)._id ≠ (mkMemRecord d2 t2)._id := by
  intro heq
  exact h (natToDec_inj heq)

/-- C8 amended witness: consecutive milliseconds give distinct ids. -/
theorem memory_ids_distinct_amended_witness :
    (mkMemRecord dataA 1700000000000)._id ≠ (mkMemRecord dataB 1700000000001)._id :=
  memory_ids_distinct_amended dataA dataB 1700000000000 1700000000001 (by decide)

/-! ### C3: a failed persistent write demotes and falls through -/

/-- C3: when the store is in persistent mode and the MongoDB write
fails, the same `saveCommand` call sets `mongoConnected := false`,
prepends the record to the in-memory buffer (so the write is not lost),
and still returns a saved record whose text, status and response are the
caller's — the failure is never surfaced. -/
theorem saveCommand_demotes_on_failure (st : StorageState) (data : CommandData)
    (now : Nat) (u : Unit) (hconn : st.mongoConnected = true) :
    (saveCommand st data now (Except.error u)).1.mongoConnected = false ∧
    (saveCommand st data now (Except.error u)).1.inMemoryCommands.head? =
      some (saveCommand st data now (Except.error u)).2 ∧
    (saveCommand st data now (Except.error u)).2.text = data.text ∧
    (saveCommand st data now (Except.error u)).2.status = data.status ∧
    (saveCommand st data now (Except.error u)).2.response = data.response := by
  unfold saveCommand
  rw [if_pos hconn]
  unfold inMemorySave
  refine ⟨rfl, ?_, rfl, rfl, rfl⟩
  by_cases hlen :
      (mkMemRecord data now :: st.inMemoryCommands).length > 100
  · simp only [hlen, if_pos, List.take_succ_cons]
    rfl
  · simp only [hlen, if_neg]
    rfl

/-- C3 witness: a concrete failed write from a connected state. -/
theorem saveCommand_demotes_on_failure_witness :
    (saveCommand { mongoConnected := true, inMemoryCommands := [] }
        dataA 1700000000000 (Except.error ())).1.mongoConnected = false ∧
    (saveCommand { mongoConnected := true, inMemoryCommands := [] }
        dataA 1700000000000 (Except.error ())).1.inMemoryCommands.head? =
      some (saveCommand { mongoConnected := true, inMemoryCommands := [] }
        dataA 1700000000000 (Except.error ())).2 ∧
    (saveCommand { mongoConnected := true, inMemoryCommands := [] }
        dataA 1700000000000 (Except.error ())).2.text = dataA.text ∧
    (saveCommand { mongoConnected := true, inMemoryCommands := [] }
        dataA 1700000000000 (Except.error ())).2.status = dataA.status ∧
    (saveCommand { mongoConnected := true, inMemoryCommands := [] }
        dataA 1700000000000 (Except.error ())).2.response = dataA.response :=
  saveCommand_demotes_on_failure { mongoConnected := true, inMemoryCommands := [] }
    dataA 1700000000000 () rfl

/-! ### C4: the in-memory buffer is bounded by 100 -/

/-- A single in-memory save yields the truncated prepend. -/
theorem inMemorySave_fst (st : StorageState) (data : CommandData) (now : Nat) :
    (inMemorySave st data now).1 =
      { st with inMemoryCommands := (mkMemRecord data now :: st.inMemoryCommands).take 100 } := by
  unfold inMemorySave
  dsimp only
  by_cases h : (mkMemRecord data now :: st.inMemoryCommands).length > 100
  · rw [if_pos h]
  · rw [if_neg h, List.take_of_length_le (by omega)]

/-- Truncation before an append is absorbed by truncation after it. -/
theorem take_append_take {α : Type} (A C : List α) (n : Nat) :
    (A ++ C.take n).take n = (A ++ C).take n := by
  rw [List.take_append_eq_append_take, List.take_append_eq_append_take, List.take_take,
    Nat.min_eq_left (Nat.sub_le n A.length)]

/-- Saving a batch against a degraded store keeps the newest 100 created
records (newest first) in front of what survives of the old buffer. -/
theorem saveManyDegraded_eq :
    ∀ (l : List (CommandData × Nat)) (buf : List StoredCommand), buf.length ≤ 100 →
      saveManyDegraded { mongoConnected := false, inMemoryCommands := buf } l =
        { mongoConnected := false
          inMemoryCommands := ((l.map fun p => mkMemRecord p.1 p.2).reverse ++ buf).take 100 } := by
  intro l
  induction l with
  | nil =>
    intro buf hbuf
    simp [saveManyDegraded, List.take_of_length_le hbuf]
  | cons p rest ih =>
    intro buf hbuf
    obtain ⟨d, t⟩ := p
    rw [saveManyDegraded]
    have hsc : (saveCommand { mongoConnected := false, inMemoryCommands := buf } d t
        (Except.error ())).1 =
        { mongoConnected := false, inMemoryCommands := (mkMemRecord d t :: buf).take 100 } := by
      unfold saveCommand
      rw [if_neg (by simp), inMemorySave_fst]
    rw [hsc, ih _ (by simp [List.length_take])]
    congr 1
    rw [take_append_take]
    simp [List.append_assoc]

/-- C4: the fallback buffer never exceeds 100 records: each in-memory
save prepends the record and truncates to capacity 100, and saving 101
records into a degraded store leaves exactly the 100 newest (newest
first) with the first-saved record evicted. -/
theorem buffer_capacity_bound (l : List (CommandData × Nat)) (hlen : l.length = 101) :
    (saveManyDegraded { mongoConnected := false, inMemoryCommands := [] } l).inMemoryCommands =
      ((l.map fun p => mkMemRecord p.1 p.2).drop 1).reverse ∧
    (saveManyDegraded { mongoConnected := false, inMemoryCommands := [] }
        l).inMemoryCommands.length = 100 ∧
    (∀ (st : StorageState) (data : CommandData) (now : Nat),
      (inMemorySave st data now).1.inMemoryCommands =
        (mkMemRecord data now :: st.inMemoryCommands).take 100) := by
  have hmap : (l.map fun p => mkMemRecord p.1 p.2).length = 101 := by simp [hlen]
  have hb : (saveManyDegraded { mongoConnected := false, inMemoryCommands := [] }
      l).inMemoryCommands = ((l.map fun p => mkMemRecord p.1 p.2).reverse).take 100 := by
    rw [saveManyDegraded_eq l [] (by simp)]
    simp
  refine ⟨?_, ?_, ?_⟩
  · rw [hb, List.take_reverse, hmap]
  · rw [hb]
    simp [List.length_take, hmap]
  · intro st data now
    rw [inMemorySave_fst]

/-- C4 witness: a concrete batch of 101 saves. -/
theorem buffer_capacity_bound_witness :
    (saveManyDegraded { mongoConnected := false, inMemoryCommands := [] }
        (List.replicate 101 (dataA, 1700000000000))).inMemoryCommands =
      (((List.replicate 101 (dataA, 1700000000000)).map
          fun p => mkMemRecord p.1 p.2).drop 1).reverse ∧
    (saveManyDegraded { mongoConnected := false, inMemoryCommands := [] }
        (List.replicate 101 (dataA, 1700000000000))).inMemoryCommands.length = 100 ∧
    (∀ (st : StorageState) (data : CommandData) (now : Nat),
      (inMemorySave st data now).1.inMemoryCommands =
        (mkMemRecord data now :: st.inMemoryCommands).take 100) :=
  buffer_capacity_bound (List.replicate 101 (dataA, 1700000000000)) (by simp)

/-! ### C2: unmatched inputs reach the unrecognized default -/

/-- C2: when no rule of the classification chain matches the
lower-cased, trimmed input, the chain reaches the terminal default
(fired branch 25, the unrecognized intent) and `processCommand` returns
status error with the fixed guidance message listing example commands. -/
theorem unrecognized_guidance (text ua : String) (env : Env)
    (h : noRuleMatches (normCmd text)) :
    firedBranch (normCmd text) = 25 ∧
    processCommand text ua env = { status := "error", response := guidanceMsg } := by
  obtain ⟨h0, h1, h2, h3, h4, h5, h6, h7, h8, h9, h10, h11, h12, h13, h14,
    h15, h16, h17, h18, h19, h20, h21, h22, h23, h24⟩ := h
  constructor
  · unfold firedBranch
    simp [h0, h1, h2, h3, h4, h5, h6, h7, h8, h9, h10, h11, h12, h13, h14,
      h15, h16, h17, h18, h19, h20, h21, h22, h23, h24]
  · unfold processCommand runBranches
    simp [h0, h1, h2, h3, h4, h5, h6, h7, h8, h9, h10, h11, h12, h13, h14,
      h15, h16, h17, h18, h19, h20, h21, h22, h23, h24]

/-- C2 witness at the spec's Scenario D input. -/
theorem unrecognized_guidance_witness :
    firedBranch (normCmd "asdkjf random text") = 25 ∧
    processCommand "asdkjf random text" "Mozilla/5.0" okEnv =
      { status := "error", response := guidanceMsg } :=
  unrecognized_guidance "asdkjf random text" "Mozilla/5.0" okEnv (by decide)

/-! ### C6: the shutdown duration parse -/

/-- C6 counterexample: in `"5 minutes shutdown"` nothing follows the
word `shutdown` (so no magnitude+unit occurs after it, and the spec's
"after shutdown" reading would give the 60-second default), yet the
duration resolves to 300 and the shutdown is scheduled for 300 seconds:
the regex captures a magnitude and unit anywhere in the text. -/
theorem shutdown_duration_counterexample :
    durationSeconds "5 minutes shutdown" = 300 ∧
    afterFirst "shutdown" "5 minutes shutdown".toList = some [] ∧
    firstTimeMatch [] = none ∧
    (300 : Nat) ≠ 60 ∧
    processCommand "5 minutes shutdown" "Mozilla/5.0" okEnv =
      { status := "success", response := "⚠️ System will shutdown in 300 seconds" } := by
  refine ⟨by decide, by decide, by decide, by decide, by decide⟩

/-- C6 (amended): when the shutdown rule fires, the duration is obtained
from the first magnitude+unit match anywhere in the text: a minutes unit
multiplies the magnitude by 60, a seconds unit is taken as-is, and an
absent match defaults to 60 seconds; in particular `"shutdown in 5
minutes"` resolves to 300 seconds. -/
theorem shutdown_duration_amended (text ua : String) (env : Env)
    (hsd : pShutdown (normCmd text) = true)
    (hearly : noRuleBeforeShutdown (normCmd text))
    (hok : env.act (Action.shutdownIn (durationSeconds (normCmd text))) = Except.ok ()) :
    processCommand text ua env =
      { status := "success"
        response := "⚠️ System will shutdown in " ++
          natToDec (durationSeconds (normCmd text)) ++ " seconds" } ∧
    (firstTimeMatch (normCmd text).toList = none → durationSeconds (normCmd text) = 60) ∧
    (∀ v u, firstTimeMatch (normCmd text).toList = some (v, u) →
      durationSeconds (normCmd text) = if jsStartsWith u "minute" then v * 60 else v) ∧
    durationSeconds (normCmd "shutdown in 5 minutes") = 300 := by
  obtain ⟨⟨h0, h1, h2, h3, h4, h5, h6, h7, h8, h9⟩, h10, h11⟩ := hearly
  refine ⟨?_, ?_, ?_, by decide⟩
  · unfold processCommand runBranches shutdownBranch
    simp [h0, h1, h2, h3, h4, h5, h6, h7, h8, h9, h10, h11, hsd, hok]
  · intro hn
    unfold durationSeconds
    rw [hn]
  · intro v u hm
    unfold durationSeconds
    rw [hm]

/-- C6 amended witness: Scenario B's input resolves to 300 seconds. -/
theorem shutdown_duration_amended_witness :
    processCommand "shutdown in 5 minutes" "Mozilla/5.0" okEnv =
      { status := "success", response := "⚠️ System will shutdown in 300 seconds" } :=
  ((shutdown_duration_amended "shutdown in 5 minutes" "Mozilla/5.0" okEnv
    (by decide) (by decide) rfl).1).trans (by decide)

/-! ### C7: rule priority between settings and shutdown -/

/-- C7 counterexample: `"google settings shutdown"` contains both
`settings` and `shutdown`, yet the settings rule does not win — the
search rule (index 1) fires first and the outcome is a Google search,
so the claim's universal "the settings rule wins" fails. -/
theorem settings_priority_counterexample :
    jsIncludes "google settings shutdown" "settings" = true ∧
    jsIncludes "google settings shutdown" "shutdown" = true ∧
    firedBranch "google settings shutdown" = 1 ∧
    firedBranch "google settings shutdown" ≠ 10 ∧
    processCommand "google settings shutdown" "Mozilla/5.0" okEnv =
      { status := "success", response := "✅ Searching Google for: settings shutdown" } := by
  refine ⟨by decide, by decide, by decide, by decide, by decide⟩

/-- With all settings actions succeeding, the settings branch produces
one of the five settings responses. -/
theorem settingsBranch_resp (cmd : String) (env : Env)
    (hok : ∀ pane, env.act (Action.settingsPane pane) = Except.ok ()) :
    ∃ resp ∈ settingsResponses, settingsBranch cmd env = Except.ok ("success", resp) := by
  unfold settingsBranch
  by_cases c1 : (jsIncludes cmd "wifi" || jsIncludes cmd "network") = true
  · rw [if_pos c1, hok]
    exact ⟨_, by simp [settingsResponses], rfl⟩
  rw [if_neg c1]
  by_cases c2 : (jsIncludes cmd "display" || jsIncludes cmd "screen") = true
  · rw [if_pos c2, hok]
    exact ⟨_, by simp [settingsResponses], rfl⟩
  rw [if_neg c2]
  by_cases c3 : (jsIncludes cmd "sound" || jsIncludes cmd "audio") = true
  · rw [if_pos c3, hok]
    exact ⟨_, by simp [settingsResponses], rfl⟩
  rw [if_neg c3]
  by_cases c4 : jsIncludes cmd "bluetooth" = true
  · rw [if_pos c4, hok]
    exact ⟨_, by simp [settingsResponses], rfl⟩
  rw [if_neg c4, hok]
  exact ⟨_, by simp [settingsResponses], rfl⟩

/-- C7 (amended): classification is first-match-wins, so for an input
containing both `settings` and `shutdown` that matches no rule earlier
than the settings rule, the settings rule (index 10) wins, the shutdown
rule (index 12) is never reached, and the outcome is one of the settings
responses. -/
theorem settings_priority_amended (text ua : String) (env : Env)
    (hset : jsIncludes (normCmd text) "settings" = true)
    (hsd : jsIncludes (normCmd text) "shutdown" = true)
    (hearly : noRuleBeforeSet (normCmd text))
    (hok : ∀ pane, env.act (Action.settingsPane pane) = Except.ok ()) :
    firedBranch (normCmd text) = 10 ∧
    firedBranch (normCmd text) ≠ 12 ∧
    (processCommand text ua env).status = "success" ∧
    (processCommand text ua env).response ∈ settingsResponses := by
  obtain ⟨h0, h1, h2, h3, h4, h5, h6, h7, h8, h9⟩ := hearly
  have hps : pSet (normCmd text) = true := by
    unfold pSet
    rw [hset]
    rfl
  have hfb : firedBranch (normCmd text) = 10 := by
    unfold firedBranch
    simp [h0, h1, h2, h3, h4, h5, h6, h7, h8, h9, hps]
  obtain ⟨resp, hmem, hsb⟩ := settingsBranch_resp (normCmd text) env hok
  have hpc : processCommand text ua env = { status := "success", response := resp } := by
    unfold processCommand runBranches
    simp [h0, h1, h2, h3, h4, h5, h6, h7, h8, h9, hps, hsb]
  refine ⟨hfb, by rw [hfb]; decide, ?_, ?_⟩
  · rw [hpc]
  · rw [hpc]
    exact hmem

/-- C7 amended witness: `"settings shutdown"` resolves through the
settings rule. -/
theorem settings_priority_amended_witness :
    firedBranch (normCmd "settings shutdown") = 10 ∧
    firedBranch (normCmd "settings shutdown") ≠ 12 ∧
    (processCommand "settings shutdown" "Mozilla/5.0" okEnv).status = "success" ∧
    (processCommand "settings shutdown" "Mozilla/5.0" okEnv).response ∈ settingsResponses :=
  settings_priority_amended "settings shutdown" "Mozilla/5.0" okEnv
    (by decide) (by decide) (by decide) (fun _ => rfl)

/-! ### C10: bare battery queries fall through -/

/-- C10 counterexample: `"battery temperature system"` contains
`battery` and neither `laptop` nor `computer`, and matches no rule
earlier than the battery rule, yet it does not fall to the unrecognized
default: the later temperature rule (index 24) fires and the outcome is
a successful temperature report. -/
theorem battery_fallthrough_counterexample :
    jsIncludes "battery temperature system" "battery" = true ∧
    jsIncludes "battery temperature system" "laptop" = false ∧
    jsIncludes "battery temperature system" "computer" = false ∧
    noRuleBeforeBattery "battery temperature system" ∧
    firedBranch "battery temperature system" = 24 ∧
    firedBranch "battery temperature system" ≠ 25 ∧
    (processCommand "battery temperature system" "Mozilla/5.0" okEnv).status = "success" := by
  refine ⟨by decide, by decide, by decide, by decide, by decide, by decide, by decide⟩

/-- C10 (amended): an input containing `battery` but neither `laptop`
nor `computer`, matching no rule earlier than the battery rule and not
matching the later temperature rule, falls to the unrecognized default
and returns status error with the guidance message; the battery-info
rule itself fires only when `battery` co-occurs with `laptop` or
`computer`. -/
theorem battery_requires_device_amended (text ua : String) (env : Env)
    (hb : jsIncludes (normCmd text) "battery" = true)
    (hl : jsIncludes (normCmd text) "laptop" = false)
    (hc : jsIncludes (normCmd text) "computer" = false)
    (hearly : noRuleBeforeBattery (normCmd text))
    (htemp : pTemp (normCmd text) = false) :
    firedBranch (normCmd text) = 25 ∧
    processCommand text ua env = { status := "error", response := guidanceMsg } := by
  obtain ⟨⟨⟨h0, h1, h2, h3, h4, h5, h6, h7, h8, h9⟩, h10, h11⟩,
    h12, h13, h14, h15, h16, h17, h18, h19, h20, h21, h22⟩ := hearly
  have hbat : pBattery (normCmd text) = false := by
    unfold pBattery
    rw [hl, hc]
    simp
  constructor
  · unfold firedBranch
    simp [h0, h1, h2, h3, h4, h5, h6, h7, h8, h9, h10, h11, h12, h13, h14,
      h15, h16, h17, h18, h19, h20, h21, h22, hbat, htemp]
  · unfold processCommand runBranches
    simp [h0, h1, h2, h3, h4, h5, h6, h7, h8, h9, h10, h11, h12, h13, h14,
      h15, h16, h17, h18, h19, h20, h21, h22, hbat, htemp]

/-- C10 amended witness: the bare input `"battery"`. -/
theorem battery_requires_device_amended_witness :
    firedBranch (normCmd "battery") = 25 ∧
    processCommand "battery" "Mozilla/5.0" okEnv =
      { status := "error", response := guidanceMsg } :=
  battery_requires_device_amended "battery" "Mozilla/5.0" okEnv
    (by decide) (by decide) (by decide) (by decide) (by decide)

end Server
